import Mathlib

/-!
Shallow embedding of `arduino_detector.py` (ArduinoDetector): the Path
Scanner (`get_serial_ports`), the USB topology classifier
(`get_usb_device_info` with its inner `search_usb_tree`), the scan driver
(`detect_arduino_devices`) and the report renderer (`print_device_info`).

Python dictionaries coming out of `json.loads` are modelled by the shape the
code actually reads: a USB tree node is a record of optional string
attributes plus an optional child list (the `_items` key).  `dict.get(k, d)`
becomes `Option.getD`, `k in dict` becomes `Option.isSome` / key lookup,
`str.lower()` becomes ASCII lower-casing (all strings involved are ASCII),
and Python's `sub in s` substring test is `strContains`.  Printing is
modelled as the list of emitted output lines, one element per line.
-/

/-- A node of the host USB topology as read by `search_usb_tree`:
the seven string attributes the code accesses (each may be absent from the
dictionary) and the optional `_items` child list. -/
inductive Item where
  | mk (name vendor_id product_id bcd_device speed location_id serial_num : Option String)
      (children : Option (List Item))

/-- The `_name` attribute. -/
def Item.name : Item → Option String
  | .mk x _ _ _ _ _ _ _ => x

/-- The `vendor_id` attribute. -/
def Item.vendor_id : Item → Option String
  | .mk _ x _ _ _ _ _ _ => x

/-- The `product_id` attribute. -/
def Item.product_id : Item → Option String
  | .mk _ _ x _ _ _ _ _ => x

/-- The `bcd_device` attribute. -/
def Item.bcd_device : Item → Option String
  | .mk _ _ _ x _ _ _ _ => x

/-- The `speed` attribute. -/
def Item.speed : Item → Option String
  | .mk _ _ _ _ x _ _ _ => x

/-- The `location_id` attribute. -/
def Item.location_id : Item → Option String
  | .mk _ _ _ _ _ x _ _ => x

/-- The `serial_num` attribute. -/
def Item.serial_num : Item → Option String
  | .mk _ _ _ _ _ _ x _ => x

/-- The `_items` key: `none` when the key is absent. -/
def Item.children : Item → Option (List Item)
  | .mk _ _ _ _ _ _ _ x => x

/-- `ArduinoDetector.ARDUINO_IDS`: the known-chipset dictionary, vendor-ID
key (lower-case, `0x`-prefixed, as emitted by `system_profiler`) to
manufacturer label. -/
def ARDUINO_IDS : List (String × String) :=
  [("0x2341", "Arduino"),
   ("0x1a86", "CH340/CH341"),
   ("0x0403", "FTDI"),
   ("0x10c4", "Silicon Labs"),
   ("0x067b", "Prolific")]

/-- Python `str.lower()` restricted to ASCII, which covers every string the
detector lower-cases (hex vendor IDs and USB product names). -/
def strLower (s : String) : String :=
  ⟨s.data.map Char.toLower⟩

/-- Python's `sub in s` on the underlying character lists. -/
def listContainsSub (sub : List Char) : List Char → Bool
  | [] => sub.isEmpty
  | c :: rest => sub.isPrefixOf (c :: rest) || listContainsSub sub rest

/-- Python's substring test `sub in s`. -/
def strContains (s sub : String) : Bool :=
  listContainsSub sub.data s.data

/-- The classification predicate `is_arduino` computed for each node in
`search_usb_tree` (lines 74-86): vendor ID lower-cased and looked up as a
key of `ARDUINO_IDS`, or one of five substrings in the lower-cased name. -/
def is_arduino (item : Item) : Bool :=
  let vendor_id := strLower (item.vendor_id.getD "")
  let product_name := strLower (item.name.getD "")
  (ARDUINO_IDS.lookup vendor_id).isSome ||
    strContains product_name "arduino" ||
    strContains product_name "serial" ||
    strContains product_name "ch340" ||
    strContains product_name "ftdi" ||
    strContains product_name "usb2.0-serial"

/-- The `device_info` record appended for a matching node (lines 89-98). -/
structure DeviceInfo where
  name : String
  vendor_id : String
  product_id : String
  version : String
  speed : String
  location_id : String
  manufacturer : String
  serial_number : String
deriving DecidableEq, Repr

/-- Construction of the `device_info` record from a matching node: each
absent attribute defaults to `"Unknown"`, and the manufacturer is the
`ARDUINO_IDS` lookup on the lower-cased vendor ID with default
`"Unknown"`. -/
def device_info (item : Item) : DeviceInfo :=
  { name := item.name.getD "Unknown"
    vendor_id := item.vendor_id.getD "Unknown"
    product_id := item.product_id.getD "Unknown"
    version := item.bcd_device.getD "Unknown"
    speed := item.speed.getD "Unknown"
    location_id := item.location_id.getD "Unknown"
    manufacturer := (ARDUINO_IDS.lookup (strLower (item.vendor_id.getD ""))).getD "Unknown"
    serial_number := item.serial_num.getD "Unknown" }

/-- `search_usb_tree(items)` (lines 70-103): for each item in order, append
its record when the predicate holds, then recurse into `_items` when that
key is present, then continue with the remaining siblings. -/
def search_usb_tree : List Item → List DeviceInfo
  | [] => []
  | .mk n v p b s l sn cs :: rest =>
    (if is_arduino (.mk n v p b s l sn cs) then [device_info (.mk n v p b s l sn cs)] else []) ++
      ((match cs with
        | some items => search_usb_tree items
        | none => []) ++ search_usb_tree rest)

/-- Lines 105-108: the search is started on each top-level bus entry's
`_items` child list (when present), never on the bus entry itself. -/
def classify_buses (buses : List Item) : List DeviceInfo :=
  buses.flatMap fun bus =>
    match bus.children with
    | some items => search_usb_tree items
    | none => []

/-- Outcome of the `subprocess.run` + `json.loads` interaction with
`system_profiler` in `get_usb_device_info`. -/
inductive QueryOutcome where
  | ok (buses : List Item)
  | commandNotFound
  | nonZeroExit
  | malformedOutput

/-- A Python exception escaping `get_usb_device_info`.  The `except` clause
on line 112 catches `subprocess.CalledProcessError`, `json.JSONDecodeError`
and `KeyError` only; `subprocess.run` with a missing executable raises
`FileNotFoundError`, which is none of these, so it propagates. -/
inductive PyException where
  | fileNotFoundError
deriving DecidableEq

/-- Value produced by a non-raising run of `get_usb_device_info`:
the device list returned and whether the error message on line 113 was
printed. -/
structure UsbInfoResult where
  devices : List DeviceInfo
  errorReported : Bool
deriving DecidableEq

/-- `get_usb_device_info` (lines 53-114): on success, classify the tree; on
a non-zero exit (`check=True` raises `CalledProcessError`) or unparsable
output (`JSONDecodeError`), the handler prints the error and returns `[]`;
a missing executable raises `FileNotFoundError`, which the handler does not
catch. -/
def get_usb_device_info : QueryOutcome → Except PyException UsbInfoResult
  | .ok buses => .ok ⟨classify_buses buses, false⟩
  | .nonZeroExit => .ok ⟨[], true⟩
  | .malformedOutput => .ok ⟨[], true⟩
  | .commandNotFound => .error .fileNotFoundError

/-- The six glob patterns of `get_serial_ports` (lines 39-46). -/
def patterns : List String :=
  ["/dev/cu.usbserial*",
   "/dev/cu.usbmodem*",
   "/dev/cu.wchusbserial*",
   "/dev/tty.usbserial*",
   "/dev/tty.usbmodem*",
   "/dev/tty.wchusbserial*"]

/-- `get_serial_ports` (lines 30-51), with `glob.glob` modelled by an
oracle `fs` giving each pattern's matches: concatenate all matches,
then `sorted(list(set(...)))` — deduplicate and sort ascending as
strings. -/
def get_serial_ports (fs : String → List String) : List String :=
  ((patterns.flatMap fs).dedup).mergeSort (fun a b => decide (a ≤ b))

/-- The dictionary returned by `detect_arduino_devices` (lines 129-133). -/
structure Devices where
  serial_ports : List String
  usb_devices : List DeviceInfo
  total_devices : Nat
deriving DecidableEq

/-- `detect_arduino_devices` (lines 116-133): runs both scanners and
packages the results; `total_devices` is the length of the serial-port
list.  An exception from `get_usb_device_info` propagates. -/
def detect_arduino_devices (fs : String → List String) (q : QueryOutcome) :
    Except PyException Devices :=
  match get_usb_device_info q with
  | .error e => .error e
  | .ok r => .ok ⟨get_serial_ports fs, r.devices, (get_serial_ports fs).length⟩

/-- The 60-character separator `"="*60`. -/
def eq_bar : String :=
  ⟨List.replicate 60 '='⟩

/-- The per-device detail lines printed on lines 161-169 (the serial-number
line only when it differs from `"Unknown"`). -/
def usb_device_lines (d : DeviceInfo) : List String :=
  let nm := d.name
  let mf := d.manufacturer
  let vid := d.vendor_id
  let pid := d.product_id
  let ver := d.version
  let sp := d.speed
  let loc := d.location_id
  let ser := d.serial_number
  [s!"      Name: {nm}",
   s!"      Manufacturer: {mf}",
   s!"      Vendor ID: {vid}",
   s!"      Product ID: {pid}",
   s!"      Version: {ver}",
   s!"      Speed: {sp}",
   s!"      Location: {loc}"] ++
    (if d.serial_number != "Unknown" then [s!"      Serial Number: {ser}"] else [])

/-- `print_device_info` (lines 135-175) as the list of output lines: header,
then either the no-devices notice with tips (when `total_devices == 0`,
returning early) or the found-count, serial-port list, USB details (when
the device list is non-empty) and the `cu.`-filtered usage section. -/
def print_device_info (devices : Devices) : List String :=
  ["", eq_bar, "🔌 ARDUINO DEVICE DETECTION RESULTS", eq_bar] ++
    (if devices.total_devices == 0 then
      ["❌ No Arduino devices found.",
       "",
       "💡 Tips:",
       "   • Make sure your Arduino is connected via USB",
       "   • Check that the USB cable supports data transfer",
       "   • Try a different USB port"]
    else
      (let n := devices.total_devices
      let nports := devices.serial_ports.length
      [s!"✅ Found {n} potential Arduino device(s)",
       "",
       s!"📡 Serial Ports ({nports}):"] ++
        (devices.serial_ports.enum.map fun ip =>
          match ip with
          | (i, port) => s!"   {i + 1}. {port}") ++
        (if devices.usb_devices.isEmpty then []
        else
          let ndev := devices.usb_devices.length
          ["", s!"🔧 USB Device Details ({ndev}):"] ++
            devices.usb_devices.enum.flatMap fun idev =>
              match idev with
              | (i, dev) => ["", s!"   Device {i + 1}:"] ++ usb_device_lines dev) ++
        ["",
         "💻 Usage in Arduino IDE:",
         "   Use these ports in Arduino IDE > Tools > Port:"] ++
        ((devices.serial_ports.filter fun port => strContains port "cu.").map
          fun port => s!"   • {port}")))

/-- The exact line sequence of the zero-devices report branch. -/
def no_devices_report : List String :=
  ["", eq_bar, "🔌 ARDUINO DEVICE DETECTION RESULTS", eq_bar,
   "❌ No Arduino devices found.",
   "",
   "💡 Tips:",
   "   • Make sure your Arduino is connected via USB",
   "   • Check that the USB cable supports data transfer",
   "   • Try a different USB port"]

/-! ### Spec-side characterizations

These two definitions follow the specification's words (pre-order traversal;
count of matching nodes at any depth) and are compared with the traversal
implemented by `search_usb_tree`. -/

/-- Spec-side: the depth-first pre-order flattening of a node forest —
each node, then its descendants, then its later siblings. -/
def preorder_items : List Item → List Item
  | [] => []
  | .mk n v p b s l sn cs :: rest =>
    .mk n v p b s l sn cs ::
      ((match cs with
        | some items => preorder_items items
        | none => []) ++ preorder_items rest)

/-- Spec-side: the number of nodes, at any depth of the forest, satisfying
the classification predicate. -/
def match_count : List Item → Nat
  | [] => 0
  | .mk n v p b s l sn cs :: rest =>
    (if is_arduino (.mk n v p b s l sn cs) then 1 else 0) +
      ((match cs with
        | some items => match_count items
        | none => 0) + match_count rest)

/-- The traversal emits exactly the `device_info` records of the
predicate-satisfying nodes, in pre-order. -/
theorem search_eq_filter_preorder (items : List Item) :
    search_usb_tree items = ((preorder_items items).filter is_arduino).map device_info := by
  induction items using search_usb_tree.induct with
  | case1 => simp [search_usb_tree, preorder_items]
  | case2 n v p b s l sn cs rest ih1 ih2 =>
    cases cs with
    | none =>
      simp only [search_usb_tree, preorder_items, List.filter_cons, ih2]
      split <;> simp
    | some items =>
      simp only [search_usb_tree, preorder_items, List.filter_cons, ih1, ih2]
      split <;> simp

/-- The spec-side match count is the count of matching nodes in the
pre-order flattening. -/
theorem match_count_eq_countP (items : List Item) :
    match_count items = (preorder_items items).countP is_arduino := by
  induction items using search_usb_tree.induct with
  | case1 => simp [match_count, preorder_items]
  | case2 n v p b s l sn cs rest ih1 ih2 =>
    cases cs with
    | none =>
      simp only [match_count, preorder_items, List.countP_cons, List.countP_append, ih2]
      split
      · simp_all
        omega
      · simp_all
    | some items =>
      simp only [match_count, preorder_items, List.countP_cons, List.countP_append, ih1, ih2]
      split
      · simp_all
        omega
      · simp_all

/-- The number of records emitted by the traversal is the number of
matching nodes. -/
theorem search_length_eq_match_count (items : List Item) :
    (search_usb_tree items).length = match_count items := by
  rw [search_eq_filter_preorder, match_count_eq_countP, List.length_map,
    List.countP_eq_length_filter]

/-! ### Concrete example nodes used by the claim theorems -/

/-- A CH340-vendor node whose name matches no substring (vendor ID in mixed
case, to exercise the case-insensitive normalization). -/
def ex_ch340 : Item :=
  .mk (some "QinHeng") (some "0x1A86") none none none none none none

/-- A node recognized only by its name, with a vendor ID not in the table. -/
def ex_usbser : Item :=
  .mk (some "USB2.0-Serial") (some "0x9999") none none none none none none

/-- A non-candidate node: Apple keyboard, vendor not in the table. -/
def ex_kbd : Item :=
  .mk (some "Keyboard") (some "0x05ac") none none none none none none

/-- A matching child node. -/
def child_node : Item :=
  .mk (some "Arduino Uno") (some "0x2341") (some "0x0043") none none none none none

/-- A matching parent whose only child is `child_node`. -/
def parent_node : Item :=
  .mk (some "FTDI Hub") (some "0x0403") none none none none none (some [child_node])

/-- A top-level bus entry that itself satisfies the predicate but has no
`_items` key. -/
def root_bus_node : Item :=
  .mk (some "Arduino Uno") (some "0x2341") none none none none none none

/-- A top-level bus entry whose `_items` child list holds `ex_ch340`. -/
def hub_bus : Item :=
  .mk (some "USB31Bus") none none none none none none (some [ex_ch340])

/-! ### Helper lemmas shared by the claim theorems -/

/-- Unfolding of `classify_buses` on a cons cell. -/
theorem classify_buses_cons (b : Item) (rest : List Item) :
    classify_buses (b :: rest) =
      (match b.children with
        | some items => search_usb_tree items
        | none => []) ++ classify_buses rest := by
  simp [classify_buses]

/-- No manufacturer label stored in `ARDUINO_IDS` is the string
`"Unknown"`. -/
theorem lookup_ne_unknown (k m : String) (h : ARDUINO_IDS.lookup k = some m) :
    m ≠ "Unknown" := by
  simp only [ARDUINO_IDS, List.lookup] at h
  repeat' split at h
  all_goals first
    | exact Option.noConfusion h
    | (injection h with hh; rw [← hh]; decide)

/-- The zero-count branch of the report renderer. -/
theorem print_device_info_zero (d : Devices) (h : d.total_devices = 0) :
    print_device_info d = no_devices_report := by
  simp [print_device_info, no_devices_report, h]

/-! ### Claim theorems -/

/-- C1 (counterexample): an unreachable `system_profiler` command is NOT
recovered: `subprocess.run` raises `FileNotFoundError`, which the `except`
clause does not name, so `get_usb_device_info` propagates the exception
instead of returning the empty candidate list with the error reported. -/
theorem usb_info_unreachable_command_fatal :
    get_usb_device_info QueryOutcome.commandNotFound = Except.error PyException.fileNotFoundError ∧
    get_usb_device_info QueryOutcome.commandNotFound ≠ Except.ok ⟨[], true⟩ := by
  refine ⟨rfl, ?_⟩
  simp [get_usb_device_info]

/-- C1 (amended): a non-zero exit of the USB-info command and malformed
(unparsable) output are each recovered locally — `get_usb_device_info`
reports the condition and returns the empty candidate list, so the scan
continues on Path Scanner results alone; an unreachable command, however,
raises `FileNotFoundError`, which is not among the caught exception classes
and propagates as fatal. -/
theorem usb_info_failure_semantics :
    get_usb_device_info QueryOutcome.nonZeroExit = Except.ok ⟨[], true⟩ ∧
    get_usb_device_info QueryOutcome.malformedOutput = Except.ok ⟨[], true⟩ ∧
    get_usb_device_info QueryOutcome.commandNotFound = Except.error PyException.fileNotFoundError ∧
    ∀ buses, get_usb_device_info (QueryOutcome.ok buses) = Except.ok ⟨classify_buses buses, false⟩ :=
  ⟨rfl, rfl, rfl, fun _ => rfl⟩

/-- C2 (counterexample): the table's keys carry the `0x` prefix (a bare
`"2341"` has no entry) and three of the five stored labels differ from the
ones claimed — `"Arduino"`, `"Silicon Labs"` and `"Prolific"`, not
`"Arduino (official)"`, `"Silicon Labs CP210x"` and `"Prolific PL2303"`. -/
theorem chipset_table_spec_labels_false :
    ARDUINO_IDS.lookup "2341" = none ∧
    ARDUINO_IDS.lookup "1a86" = none ∧
    ARDUINO_IDS.lookup "0x2341" = some "Arduino" ∧
    ARDUINO_IDS.lookup "0x10c4" = some "Silicon Labs" ∧
    ARDUINO_IDS.lookup "0x067b" = some "Prolific" ∧
    "Arduino" ≠ "Arduino (official)" ∧
    "Silicon Labs" ≠ "Silicon Labs CP210x" ∧
    "Prolific" ≠ "Prolific PL2303" := by
  decide

/-- C2 (amended): the known chipset table maps exactly the five lower-case
`0x`-prefixed vendor IDs `0x2341`, `0x1a86`, `0x0403`, `0x10c4`, `0x067b`
to `"Arduino"`, `"CH340/CH341"`, `"FTDI"`, `"Silicon Labs"`, `"Prolific"`,
and for any node whose vendor ID lower-cases to a key of the table the
classifier marks the node a candidate and resolves exactly the stored
label. -/
theorem chipset_table_amended :
    ARDUINO_IDS = [("0x2341", "Arduino"), ("0x1a86", "CH340/CH341"), ("0x0403", "FTDI"),
      ("0x10c4", "Silicon Labs"), ("0x067b", "Prolific")] ∧
    ∀ (item : Item) (v m : String), item.vendor_id = some v →
      ARDUINO_IDS.lookup (strLower v) = some m →
      is_arduino item = true ∧ (device_info item).manufacturer = m := by
  refine ⟨rfl, ?_⟩
  intro item v m hv hm
  refine ⟨?_, ?_⟩
  · simp [is_arduino, hv, hm]
  · simp [device_info, hv, hm]

/-- C2 (witness): on the concrete node with mixed-case vendor ID
`"0x1A86"`, the classifier resolves the stored label `"CH340/CH341"`. -/
theorem chipset_table_amended_witness :
    is_arduino ex_ch340 = true ∧ (device_info ex_ch340).manufacturer = "CH340/CH341" :=
  chipset_table_amended.2 ex_ch340 "0x1A86" "CH340/CH341" rfl (by decide)

/-- C3: for every forest handed to the traversal, the number of
`CandidateDevice` records returned equals the number of nodes, at any
depth, satisfying the classification predicate — a failing node contributes
zero records while its matching descendants are still counted. -/
theorem candidate_count_eq_matching_nodes :
    ∀ items : List Item, (search_usb_tree items).length = match_count items :=
  search_length_eq_match_count

/-- C4: the classification predicate holds exactly when the lower-cased
vendor ID is a key of the table or the lower-cased name contains one of the
five substrings; in particular the CH340-vendor node and the
`"USB2.0-Serial"`-named node are candidates while the keyboard node is
excluded. -/
theorem classification_predicate_iff :
    (∀ item : Item,
      is_arduino item = true ↔
        ((ARDUINO_IDS.lookup (strLower (item.vendor_id.getD ""))).isSome = true ∨
          ∃ sub ∈ (["arduino", "serial", "ch340", "ftdi", "usb2.0-serial"] : List String),
            strContains (strLower (item.name.getD "")) sub = true)) ∧
    is_arduino ex_ch340 = true ∧ is_arduino ex_usbser = true ∧ is_arduino ex_kbd = false := by
  refine ⟨?_, by decide, by decide, by decide⟩
  intro item
  simp only [is_arduino, Bool.or_eq_true, List.mem_cons, List.mem_singleton,
    List.not_mem_nil, or_false, exists_eq_or_imp, exists_eq_left]
  tauto

/-- C5: the candidate sequence is the depth-first pre-order flattening of
the forest, filtered by the predicate — parents before children, children
before later siblings; on the concrete one-parent-one-child tree the parent
is listed immediately before the child. -/
theorem candidates_in_preorder :
    (∀ items : List Item,
      search_usb_tree items = ((preorder_items items).filter is_arduino).map device_info) ∧
    search_usb_tree [parent_node] = [device_info parent_node, device_info child_node] := by
  refine ⟨search_eq_filter_preorder, ?_⟩
  simp [search_usb_tree, parent_node, child_node]
  decide

/-- C6: for every filesystem state the Path Scanner result is sorted
ascending as strings, duplicate-free, contains exactly the concatenated
pattern matches, and is empty when every pattern matches nothing. -/
theorem get_serial_ports_spec (fs : String → List String) :
    List.Sorted (fun a b : String => a ≤ b) (get_serial_ports fs) ∧
    (get_serial_ports fs).Nodup ∧
    (∀ x, x ∈ get_serial_ports fs ↔ x ∈ patterns.flatMap fs) ∧
    ((∀ p ∈ patterns, fs p = []) → get_serial_ports fs = []) := by
  refine ⟨?_, ?_, ?_, ?_⟩
  · have hs := @List.sorted_mergeSort String (fun a b : String => decide (a ≤ b))
      (fun a b c hab hbc => by
        simp only [decide_eq_true_eq] at *
        exact le_trans hab hbc)
      (fun a b => by
        simp only [Bool.or_eq_true, decide_eq_true_eq]
        exact le_total a b)
      ((patterns.flatMap fs).dedup)
    exact hs.imp fun hab => by simpa using hab
  · exact ((List.mergeSort_perm _ _).nodup_iff).mpr (List.nodup_dedup _)
  · intro x
    rw [get_serial_ports, (List.mergeSort_perm _ _).mem_iff, List.mem_dedup]
  · intro hempty
    have hflat : patterns.flatMap fs = [] := by
      have h1 := hempty "/dev/cu.usbserial*" (by simp [patterns])
      have h2 := hempty "/dev/cu.usbmodem*" (by simp [patterns])
      have h3 := hempty "/dev/cu.wchusbserial*" (by simp [patterns])
      have h4 := hempty "/dev/tty.usbserial*" (by simp [patterns])
      have h5 := hempty "/dev/tty.usbmodem*" (by simp [patterns])
      have h6 := hempty "/dev/tty.wchusbserial*" (by simp [patterns])
      simp [patterns, h1, h2, h3, h4, h5, h6]
    simp [get_serial_ports, hflat]

/-- C6 (witness): on the empty filesystem the scanner returns the empty
list. -/
theorem get_serial_ports_spec_witness :
    get_serial_ports (fun _ => []) = [] :=
  (get_serial_ports_spec (fun _ => [])).2.2.2 (fun _ _ => rfl)

/-- C7: for a node passing the predicate, every absent attribute of the
constructed record defaults to the literal `"Unknown"`, and the
manufacturer is `"Unknown"` exactly when the vendor ID is absent or its
lower-cased form has no entry in the table; no attribute combination is an
error. -/
theorem candidate_unknown_defaults (item : Item) (_h : is_arduino item = true) :
    (item.name = none → (device_info item).name = "Unknown") ∧
    (item.vendor_id = none → (device_info item).vendor_id = "Unknown") ∧
    (item.product_id = none → (device_info item).product_id = "Unknown") ∧
    (item.bcd_device = none → (device_info item).version = "Unknown") ∧
    (item.speed = none → (device_info item).speed = "Unknown") ∧
    (item.location_id = none → (device_info item).location_id = "Unknown") ∧
    (item.serial_num = none → (device_info item).serial_number = "Unknown") ∧
    ((device_info item).manufacturer = "Unknown" ↔
      (item.vendor_id = none ∨
        ARDUINO_IDS.lookup (strLower (item.vendor_id.getD "")) = none)) := by
  refine ⟨fun hn => by simp [device_info, hn], fun hn => by simp [device_info, hn],
    fun hn => by simp [device_info, hn], fun hn => by simp [device_info, hn],
    fun hn => by simp [device_info, hn], fun hn => by simp [device_info, hn],
    fun hn => by simp [device_info, hn], ?_⟩
  cases hl : ARDUINO_IDS.lookup (strLower (item.vendor_id.getD "")) with
  | none => simp [device_info, hl]
  | some m =>
    have hm := lookup_ne_unknown _ _ hl
    have hv : item.vendor_id ≠ none := by
      intro hn
      rw [hn] at hl
      simp +decide [ARDUINO_IDS, List.lookup, strLower] at hl
    simp [device_info, hl, hm, hv]

/-- C7 (witness): a candidate node carrying only a vendor ID gets
`"Unknown"` defaults, and its manufacturer is resolved (not
`"Unknown"`). -/
theorem candidate_unknown_defaults_witness :
    is_arduino (Item.mk none (some "0x1a86") none none none none none none) = true ∧
    ((Item.mk none (some "0x1a86") none none none none none none : Item).name = none →
      (device_info (Item.mk none (some "0x1a86") none none none none none none)).name =
        "Unknown") ∧
    ((device_info (Item.mk none (some "0x1a86") none none none none none none)).manufacturer =
        "Unknown" ↔
      ((Item.mk none (some "0x1a86") none none none none none none : Item).vendor_id = none ∨
        ARDUINO_IDS.lookup (strLower
          ((Item.mk none (some "0x1a86") none none none none none none : Item).vendor_id.getD
            "")) = none)) :=
  have hc := candidate_unknown_defaults
    (Item.mk none (some "0x1a86") none none none none none none) (by decide)
  ⟨by decide, hc.1, hc.2.2.2.2.2.2.2⟩

/-- C8: whenever the total device-file count is zero the report is exactly
the no-devices-found notice with the static troubleshooting tips — no list
sections; this branch is taken in particular on zero filesystem matches and
zero classified nodes. -/
theorem zero_total_report_branch :
    (∀ d : Devices, d.total_devices = 0 → print_device_info d = no_devices_report) ∧
    detect_arduino_devices (fun _ => []) (QueryOutcome.ok []) = Except.ok ⟨[], [], 0⟩ ∧
    print_device_info ⟨[], [], 0⟩ = no_devices_report := by
  refine ⟨print_device_info_zero, ?_, print_device_info_zero _ rfl⟩
  simp [detect_arduino_devices, get_usb_device_info, classify_buses, get_serial_ports, patterns]

/-- C8 (witness): the zero-count branch at a concrete scan result. -/
theorem zero_total_report_branch_witness :
    print_device_info ⟨["/dev/x"], [], 0⟩ = no_devices_report :=
  zero_total_report_branch.1 ⟨["/dev/x"], [], 0⟩ rfl

/-- C9: the zero-device branch is decided solely by the device-file path
count — every scan result has `total_devices` equal to the path-list
length, so an empty path list always yields the no-devices-found report,
with no USB candidate details, even when the candidate sequence is
non-empty. -/
theorem report_branch_by_path_count :
    ∀ (fs : String → List String) (q : QueryOutcome) (d : Devices),
      detect_arduino_devices fs q = Except.ok d →
      (d.total_devices = d.serial_ports.length ∧
        (d.serial_ports = [] → print_device_info d = no_devices_report)) := by
  intro fs q d hd
  unfold detect_arduino_devices at hd
  cases hq : get_usb_device_info q with
  | error e => rw [hq] at hd; exact Except.noConfusion hd
  | ok r =>
    rw [hq] at hd
    injection hd with hd
    subst hd
    refine ⟨rfl, fun hp => ?_⟩
    simp only at hp
    apply print_device_info_zero
    simp [hp]

/-- C9 (witness): a scan with no filesystem matches but one classified USB
candidate still renders the no-devices-found report. -/
theorem report_branch_by_path_count_witness :
    print_device_info ⟨[], [device_info ex_ch340], 0⟩ = no_devices_report :=
  (report_branch_by_path_count (fun _ => []) (QueryOutcome.ok [hub_bus])
    ⟨[], [device_info ex_ch340], 0⟩
    (by
      simp [detect_arduino_devices, get_usb_device_info, classify_buses, hub_bus,
        Item.children, get_serial_ports, patterns, search_usb_tree, ex_ch340]
      decide)).2 rfl

/-- C10: the predicate is never applied to the top-level bus entries — the
traversal starts at each bus entry's child list, so the candidate count
plus the number of matching root entries equals the total matching-node
count, and a matching root entry with no children contributes nothing. -/
theorem roots_never_classified :
    (∀ buses : List Item,
      (classify_buses buses).length + buses.countP is_arduino = match_count buses) ∧
    is_arduino root_bus_node = true ∧ classify_buses [root_bus_node] = [] := by
  refine ⟨?_, by decide, by simp [classify_buses, root_bus_node, Item.children]⟩
  intro buses
  induction buses with
  | nil => simp [classify_buses, match_count]
  | cons b rest ih =>
    rw [classify_buses_cons, List.length_append, List.countP_cons]
    obtain ⟨n, v, p, bd, s, l, sn, cs⟩ := b
    cases cs with
    | none =>
      simp only [match_count, Item.children]
      cases h : is_arduino (Item.mk n v p bd s l sn none) <;> simp [h] <;> omega
    | some items =>
      simp only [match_count, Item.children]
      have hs := search_length_eq_match_count items
      cases h : is_arduino (Item.mk n v p bd s l sn (some items)) <;> simp [h, hs] <;> omega
